import Mathlib

/-!
Shallow embedding of the Decentraland scene `live_fx_music_venu_dcl`
(src/modules/fx.ts as given in src/unnamed/part_002, together with
src/modules/venue.ts and src/index.ts).

Modelling conventions:
* JavaScript numbers are modelled as rationals (ℚ).  The host math
  library (`Math.sin`, `Math.cos`, `Math.PI`) is opaque host
  functionality, so it is abstracted as a `HostMath` parameter,
  exactly as the specification treats the host engine as opaque.
* `Vector3.equals` of the DCL math library is exact componentwise
  equality; it is embedded as a boolean componentwise comparison.
* The scene state that the three registered systems read and write
  (the two time accumulators, the dance-floor transform/material, the
  eight light entities, the two button materials) is collected in
  `FXState`; the systems become state-transition functions.
* `lightEntities[0]` on an empty array would fault at
  `Transform.getMutable(undefined)`; the lights-toggle branch is
  therefore embedded as an `Option`-returning function, `none` being
  the fault.
* In `clubLightsSystem`, `lightEntities.indexOf(light)` is the loop
  index because `engine.addEntity()` returns pairwise distinct entity
  handles; the loop over `lightEntities` is embedded as `List.mapIdx`.
-/

namespace LiveFX

/-- DCL `Vector3`: three numeric components (scale and position values). -/
structure Vector3 where
  x : ℚ
  y : ℚ
  z : ℚ
deriving DecidableEq

/-- `Vector3.create(x, y, z)`. -/
def Vector3.create (x y z : ℚ) : Vector3 := ⟨x, y, z⟩

/-- `Vector3.Zero()` = (0, 0, 0). -/
def Vector3.Zero : Vector3 := ⟨0, 0, 0⟩

/-- `Vector3.equals(a, b)`: exact componentwise equality of the DCL math
library. -/
def Vector3.equals (a b : Vector3) : Bool :=
  a.x == b.x && a.y == b.y && a.z == b.z

/-- DCL `Color3` (r, g, b). -/
structure Color3 where
  r : ℚ
  g : ℚ
  b : ℚ
deriving DecidableEq

/-- `Color3.create(r, g, b)`. -/
def Color3.create (r g b : ℚ) : Color3 := ⟨r, g, b⟩

/-- DCL `Color4` (r, g, b, a). -/
structure Color4 where
  r : ℚ
  g : ℚ
  b : ℚ
  a : ℚ
deriving DecidableEq

/-- `Color4.Red()` = (1, 0, 0, 1). -/
def Color4.Red : Color4 := ⟨1, 0, 0, 1⟩

/-- `Color4.Green()` = (0, 1, 0, 1). -/
def Color4.Green : Color4 := ⟨0, 1, 0, 1⟩

/-- `Color4.fromHexString('#9932CC')`: the purple of the dance floor,
components 0x99/255, 0x32/255, 0xCC/255, alpha 1. -/
def Color4.purple9932CC : Color4 := ⟨153/255, 50/255, 204/255, 1⟩

/-- The protocol field `PBRMaterial.emissiveColor` is a `Color3`; passing a
`Color4` drops the alpha component. -/
def Color4.toColor3 (c : Color4) : Color3 := ⟨c.r, c.g, c.b⟩

/-- The PBR branch of the SDK `Material` component: only the fields this
scene reads or writes are carried. -/
structure PbrMaterial where
  albedoColor : Option Color4 := none
  emissiveColor : Option Color3 := none
  emissiveIntensity : Option ℚ := none
deriving DecidableEq

/-- The `material` oneof of the SDK `Material` component
(`$case === 'pbr'` or `$case === 'unlit'`). -/
inductive MaterialUnion where
  | pbr (pbr : PbrMaterial)
  | unlit
deriving DecidableEq

/-- The SDK `Material` component: an optional `material` oneof. -/
structure MaterialComp where
  material : Option MaterialUnion
deriving DecidableEq

/-- `Material.setPbrMaterial(entity, p)`: replaces the entity's material
with a PBR material built from the given fields. -/
def setPbrMaterial (p : PbrMaterial) : MaterialComp := ⟨some (.pbr p)⟩

/-- The SDK `Transform` component, restricted to the fields the systems
touch (position and scale; rotation and parent are never read or written
after creation by any system). -/
structure TransformComp where
  position : Vector3
  scale : Vector3
deriving DecidableEq

/-- The mutable per-light state: its `Transform` and `Material`. -/
structure LightState where
  transform : TransformComp
  material : MaterialComp
deriving DecidableEq

/-- The opaque host math library: `Math.sin`, `Math.cos`, `Math.PI`. -/
structure HostMath where
  sin : ℚ → ℚ
  cos : ℚ → ℚ
  pi : ℚ

/-- The scene state created by `createInteractiveFX` and mutated by the
three registered systems: the closure variables `totalTime` and
`lightTime`, the dance floor's transform and material, the light
entities, and the two button materials. -/
structure FXState where
  totalTime : ℚ
  lightTime : ℚ
  danceFloorTransform : TransformComp
  danceFloorMaterial : MaterialComp
  lights : List LightState
  danceFloorButtonMaterial : MaterialComp
  lightsButtonMaterial : MaterialComp
deriving DecidableEq

/-- `const danceFloorOriginalScale = Vector3.create(10, 0.02, 10)`. -/
def danceFloorOriginalScale : Vector3 := Vector3.create 10 (2/100) 10

/-- `const lightOriginalScale = Vector3.create(0.2, 0.2, 0.2)`. -/
def lightOriginalScale : Vector3 := Vector3.create (2/10) (2/10) (2/10)

/-- `const lightCount = 8`. -/
def lightCount : ℕ := 8

/-- One light as created by the loop in `createInteractiveFX`: position
(8, 5, 8), scale `lightOriginalScale`, PBR material with red emissive
color and emissive intensity 5. -/
def initLight : LightState :=
  { transform := { position := Vector3.create 8 5 8, scale := lightOriginalScale }
    material := setPbrMaterial
      { emissiveColor := some Color4.Red.toColor3, emissiveIntensity := some 5 } }

/-- The dance floor's initial PBR material: albedo and emissive both the
purple '#9932CC', emissive intensity 1. -/
def danceFloorPbr : PbrMaterial :=
  { albedoColor := some Color4.purple9932CC
    emissiveColor := some Color4.purple9932CC.toColor3
    emissiveIntensity := some 1 }

/-- The state right after `createInteractiveFX` returns: both time
accumulators 0, dance floor at (8, 0.06, 8) with its original scale and
purple PBR material, `lightCount` identical lights, both buttons green. -/
def fxInit : FXState :=
  { totalTime := 0
    lightTime := 0
    danceFloorTransform :=
      { position := Vector3.create 8 (6/100) 8, scale := danceFloorOriginalScale }
    danceFloorMaterial := setPbrMaterial danceFloorPbr
    lights := List.replicate lightCount initLight
    danceFloorButtonMaterial := setPbrMaterial { albedoColor := some Color4.Green }
    lightsButtonMaterial := setPbrMaterial { albedoColor := some Color4.Green } }

/-- The `danceFloorSystem` callback: adds `dt` to `totalTime` and, when
the dance floor's material is PBR, writes the emissive color
((sin(t*2)+1)/2, (cos(t*0.5)+1)/2, (sin(t*1+π)+1)/2) at the updated
accumulator t. -/
def danceFloorSystem (host : HostMath) (dt : ℚ) (s : FXState) : FXState :=
  let totalTime := s.totalTime + dt
  let mat : MaterialComp :=
    match s.danceFloorMaterial.material with
    | some (.pbr p) =>
        let r := (host.sin (totalTime * 2) + 1) / 2
        let g := (host.cos (totalTime * (1/2)) + 1) / 2
        let b := (host.sin (totalTime * 1 + host.pi) + 1) / 2
        ⟨some (.pbr { p with emissiveColor := some (Color3.create r g b) })⟩
    | m => ⟨m⟩
  { s with totalTime := totalTime, danceFloorMaterial := mat }

/-- The angle of the light at index `i` in `clubLightsSystem`:
`lightTime + indexOf(light) * (Math.PI * 2 / lightEntities.length)`. -/
def lightAngle (host : HostMath) (lightTime : ℚ) (n : ℕ) (i : ℕ) : ℚ :=
  lightTime + i * (host.pi * 2 / n)

/-- The body of the `for (const light of lightEntities)` loop in
`clubLightsSystem`: a light whose scale equals zero is skipped
(`continue`); otherwise its position is set onto the circle of radius 4
around (8, 5, 8) and, when its material is PBR, its emissive color is
set from the same angle. -/
def updateLight (host : HostMath) (lightTime : ℚ) (n : ℕ) (i : ℕ)
    (l : LightState) : LightState :=
  if Vector3.equals l.transform.scale Vector3.Zero then l
  else
    let angle := lightAngle host lightTime n i
    let x := 8 + host.cos angle * 4
    let z := 8 + host.sin angle * 4
    let mat : MaterialComp :=
      match l.material.material with
      | some (.pbr p) =>
          let r := (host.sin (angle * 2) + 1) / 2
          let g := (host.cos (angle * (8/10)) + 1) / 2
          let b := (host.sin angle + 1) / 2
          ⟨some (.pbr { p with emissiveColor := some (Color3.create r g b) })⟩
      | m => ⟨m⟩
    { transform := { l.transform with position := Vector3.create x 5 z }
      material := mat }

/-- The `clubLightsSystem` callback: adds `dt * 0.5` to `lightTime`, then
runs the loop body over the light list. -/
def clubLightsSystem (host : HostMath) (dt : ℚ) (s : FXState) : FXState :=
  let lightTime := s.lightTime + dt * (1/2)
  { s with
      lightTime := lightTime
      lights := s.lights.mapIdx (fun i l =>
        updateLight host lightTime s.lights.length i l) }

/-- The dance-floor branch of the button-poll system (taken when
`inputSystem.isTriggered(..., danceFloorButton)` holds): flips the dance
floor's scale between zero and `danceFloorOriginalScale` and repaints
the button red (hidden) or green (shown). -/
def danceFloorToggle (s : FXState) : FXState :=
  let isVisible := !(Vector3.equals s.danceFloorTransform.scale Vector3.Zero)
  { s with
      danceFloorTransform :=
        { s.danceFloorTransform with
            scale := if isVisible then Vector3.Zero else danceFloorOriginalScale }
      danceFloorButtonMaterial := setPbrMaterial
        { albedoColor := some (if isVisible then Color4.Red else Color4.Green) } }

/-- The lights branch of the button-poll system (taken when
`inputSystem.isTriggered(..., lightsButton)` holds): reads
`lightEntities[0]` (a fault, `none`, when the list is empty), then sets
every light's scale and repaints the lights button. -/
def lightsToggle (s : FXState) : Option FXState :=
  match s.lights.head? with
  | none => none
  | some l0 =>
      let areVisible := !(Vector3.equals l0.transform.scale Vector3.Zero)
      some { s with
        lights := s.lights.map (fun l =>
          { l with transform :=
              { l.transform with
                  scale := if areVisible then Vector3.Zero else lightOriginalScale } })
        lightsButtonMaterial := setPbrMaterial
          { albedoColor := some (if areVisible then Color4.Red else Color4.Green) } }

/-- The third registered system (the anonymous arrow function): polls the
two buttons, `dfTriggered` and `lightsTriggered` being the results of
the two `inputSystem.isTriggered` calls this frame, and runs the
corresponding toggle branches in order. -/
def buttonPollSystem (dfTriggered lightsTriggered : Bool) (s : FXState) :
    Option FXState :=
  let s1 := if dfTriggered then danceFloorToggle s else s
  if lightsTriggered then lightsToggle s1 else some s1

/-- The states reachable after `createInteractiveFX`, under any
interleaving of frame steps of the three registered systems with any
delta times and any polled button inputs. -/
inductive Reachable (host : HostMath) : FXState → Prop where
  | init : Reachable host fxInit
  | danceFloor (dt : ℚ) {s : FXState} :
      Reachable host s → Reachable host (danceFloorSystem host dt s)
  | clubLights (dt : ℚ) {s : FXState} :
      Reachable host s → Reachable host (clubLightsSystem host dt s)
  | buttons (dfT lT : Bool) {s s' : FXState} :
      Reachable host s → buttonPollSystem dfT lT s = some s' →
      Reachable host s'

/-- The dance-floor button's albedo color, when its material is PBR. -/
def dfButtonAlbedo (s : FXState) : Option Color4 :=
  match s.danceFloorButtonMaterial.material with
  | some (.pbr p) => p.albedoColor
  | _ => none

/-- The lights button's albedo color, when its material is PBR. -/
def lightsButtonAlbedo (s : FXState) : Option Color4 :=
  match s.lightsButtonMaterial.material with
  | some (.pbr p) => p.albedoColor
  | _ => none

/-- The dance floor's emissive color, when its material is PBR. -/
def dfEmissive (s : FXState) : Option Color3 :=
  match s.danceFloorMaterial.material with
  | some (.pbr p) => p.emissiveColor
  | _ => none

/-- The two-valued scale property of the dance floor: its scale is the
zero vector or the cached original scale. -/
def dfScaleTwoValued (s : FXState) : Prop :=
  s.danceFloorTransform.scale = Vector3.Zero ∨
  s.danceFloorTransform.scale = danceFloorOriginalScale

/-- Identifiers of the per-frame systems this repository registers. -/
inductive SystemId where
  | danceFloorSystem
  | clubLightsSystem
  | buttonPollSystem
deriving DecidableEq

/-- The `engine.addSystem` registrations performed by
`createInteractiveFX` (src/modules/fx.ts), in source order. -/
def fxRegisteredSystems : List SystemId :=
  [.danceFloorSystem, .clubLightsSystem, .buttonPollSystem]

/-- The `engine.addSystem` registrations performed by `createVenue` and
`applyVideoMaterial` (src/modules/venue.ts): none. -/
def venueRegisteredSystems : List SystemId := []

/-- The `engine.addSystem` registrations performed directly by `main`
(src/index.ts) outside the calls to `createVenue` and
`createInteractiveFX`: none (the video-guide setup is an external
library call). -/
def indexRegisteredSystems : List SystemId := []

/-- All systems this repository's code registers: `main` calls
`createVenue`, then `createInteractiveFX`, then does video setup. -/
def sceneRegisteredSystems : List SystemId :=
  venueRegisteredSystems ++ fxRegisteredSystems ++ indexRegisteredSystems

/-- The semantics of a registered system as a step on `FXState`: the two
animation systems always succeed; the button-poll system may fault. -/
def runSystem (id : SystemId) (host : HostMath) (dt : ℚ)
    (dfT lT : Bool) (s : FXState) : Option FXState :=
  match id with
  | .danceFloorSystem => some (danceFloorSystem host dt s)
  | .clubLightsSystem => some (clubLightsSystem host dt s)
  | .buttonPollSystem => buttonPollSystem dfT lT s

/-! ### Test fixtures and observation views -/

/-- A concrete host-math instance (all trigonometric values 0) used to
instantiate universally quantified theorems on concrete inputs. -/
def hostZero : HostMath := ⟨fun _ => 0, fun _ => 0, 0⟩

/-- A concrete host-math instance with injective trigonometric functions,
used to exhibit dependence of outputs on accumulated time. -/
def hostLinear : HostMath := ⟨fun q => q, fun q => q, 0⟩

/-- The component state the `danceFloorSystem` callback reads and writes:
the `totalTime` accumulator and the dance floor's material. -/
def dfView (s : FXState) : ℚ × MaterialComp :=
  (s.totalTime, s.danceFloorMaterial)

/-- The component state the `clubLightsSystem` callback reads and writes:
the `lightTime` accumulator and the light entities. -/
def clubView (s : FXState) : ℚ × List LightState :=
  (s.lightTime, s.lights)

/-- The component state the button-poll system reads and writes: the
dance floor's transform, the light entities, and the two button
materials. -/
def toggleView (s : FXState) :
    TransformComp × List LightState × MaterialComp × MaterialComp :=
  (s.danceFloorTransform, s.lights, s.danceFloorButtonMaterial,
    s.lightsButtonMaterial)

/-- A light that has been toggled off: scale zero. -/
def hiddenLight : LightState :=
  { initLight with transform :=
      { initLight.transform with scale := Vector3.Zero } }

/-- A scene state in which all lights have been toggled off. -/
def fxHidden : FXState :=
  { fxInit with lights := List.replicate lightCount hiddenLight }

/-- A scene state with the dance floor shown but the dance-floor button
red: its scale is two-valued, yet the button color disagrees with the
visibility. -/
def fxRedButton : FXState :=
  { fxInit with danceFloorButtonMaterial :=
      setPbrMaterial { albedoColor := some Color4.Red } }

/-! ### Basic lemmas about the embedded host-math primitives -/

/-- `Vector3.equals` decides equality. -/
@[simp] theorem Vector3.equals_iff {a b : Vector3} :
    Vector3.equals a b = true ↔ a = b := by
  cases a; cases b
  simp [Vector3.equals, Vector3.mk.injEq, and_assoc]

/-- `Vector3.equals` is `false` exactly on distinct vectors. -/
@[simp] theorem Vector3.equals_eq_false {a b : Vector3} :
    Vector3.equals a b = false ↔ a ≠ b := by
  rw [Bool.eq_false_iff, ne_eq, ne_eq, Vector3.equals_iff]

theorem danceFloorOriginalScale_ne_zero :
    danceFloorOriginalScale ≠ Vector3.Zero := by
  simp only [danceFloorOriginalScale, Vector3.Zero, Vector3.create, ne_eq,
    Vector3.mk.injEq, not_and]
  norm_num

theorem lightOriginalScale_ne_zero :
    lightOriginalScale ≠ Vector3.Zero := by
  simp only [lightOriginalScale, Vector3.Zero, Vector3.create, ne_eq,
    Vector3.mk.injEq, not_and]
  norm_num

/-! ### Frame lemmas: which state components each system touches -/

theorem danceFloorSystem_lights (host : HostMath) (dt : ℚ) (s : FXState) :
    (danceFloorSystem host dt s).lights = s.lights := rfl

theorem danceFloorSystem_danceFloorTransform (host : HostMath) (dt : ℚ)
    (s : FXState) :
    (danceFloorSystem host dt s).danceFloorTransform = s.danceFloorTransform := rfl

theorem danceFloorSystem_danceFloorButtonMaterial (host : HostMath) (dt : ℚ)
    (s : FXState) :
    (danceFloorSystem host dt s).danceFloorButtonMaterial =
      s.danceFloorButtonMaterial := rfl

theorem danceFloorSystem_lightsButtonMaterial (host : HostMath) (dt : ℚ)
    (s : FXState) :
    (danceFloorSystem host dt s).lightsButtonMaterial =
      s.lightsButtonMaterial := rfl

theorem clubLightsSystem_danceFloorTransform (host : HostMath) (dt : ℚ)
    (s : FXState) :
    (clubLightsSystem host dt s).danceFloorTransform = s.danceFloorTransform := rfl

theorem clubLightsSystem_danceFloorMaterial (host : HostMath) (dt : ℚ)
    (s : FXState) :
    (clubLightsSystem host dt s).danceFloorMaterial = s.danceFloorMaterial := rfl

theorem clubLightsSystem_danceFloorButtonMaterial (host : HostMath) (dt : ℚ)
    (s : FXState) :
    (clubLightsSystem host dt s).danceFloorButtonMaterial =
      s.danceFloorButtonMaterial := rfl

theorem clubLightsSystem_lightsButtonMaterial (host : HostMath) (dt : ℚ)
    (s : FXState) :
    (clubLightsSystem host dt s).lightsButtonMaterial =
      s.lightsButtonMaterial := rfl

/-- The loop body never writes the light's scale. -/
theorem updateLight_scale (host : HostMath) (lightTime : ℚ) (n i : ℕ)
    (l : LightState) :
    (updateLight host lightTime n i l).transform.scale = l.transform.scale := by
  simp only [updateLight]
  split <;> rfl

theorem clubLightsSystem_lights_length (host : HostMath) (dt : ℚ) (s : FXState) :
    (clubLightsSystem host dt s).lights.length = s.lights.length := by
  simp [clubLightsSystem]

theorem clubLightsSystem_lights_getElem (host : HostMath) (dt : ℚ) (s : FXState)
    (i : ℕ) (hi : i < s.lights.length)
    (hi2 : i < (clubLightsSystem host dt s).lights.length) :
    (clubLightsSystem host dt s).lights.get ⟨i, hi2⟩ =
      updateLight host (s.lightTime + dt * (1/2)) s.lights.length i
        (s.lights.get ⟨i, hi⟩) := by
  simp [clubLightsSystem, List.getElem_mapIdx]

/-- Every scale that occurs among the lights after a club-lights frame
already occurred before it. -/
theorem clubLightsSystem_lights_scale_mem (host : HostMath) (dt : ℚ)
    (s : FXState) {l : LightState}
    (hl : l ∈ (clubLightsSystem host dt s).lights) :
    ∃ l₀ ∈ s.lights, l.transform.scale = l₀.transform.scale := by
  obtain ⟨i, hi, rfl⟩ := List.mem_iff_getElem.1 hl
  have hi' : i < s.lights.length := by
    simpa [clubLightsSystem_lights_length] using hi
  refine ⟨s.lights.get ⟨i, hi'⟩, List.get_mem _ _ _, ?_⟩
  have := clubLightsSystem_lights_getElem host dt s i hi' hi
  simp only [List.get_eq_getElem] at this
  rw [this, updateLight_scale]
  simp

/-! ### The inductive invariant -/

/-- The inductive invariant of the reachable states: eight lights; the
dance floor's scale two-valued with the dance-floor button's albedo
matching it (red when hidden, green when shown); all lights sharing a
two-valued scale with the lights button's albedo matching it. -/
def Inv (s : FXState) : Prop :=
  s.lights.length = lightCount ∧
  ((s.danceFloorTransform.scale = Vector3.Zero ∧
      dfButtonAlbedo s = some Color4.Red) ∨
   (s.danceFloorTransform.scale = danceFloorOriginalScale ∧
      dfButtonAlbedo s = some Color4.Green)) ∧
  (((∀ l ∈ s.lights, l.transform.scale = Vector3.Zero) ∧
      lightsButtonAlbedo s = some Color4.Red) ∨
   ((∀ l ∈ s.lights, l.transform.scale = lightOriginalScale) ∧
      lightsButtonAlbedo s = some Color4.Green))

theorem inv_fxInit : Inv fxInit := by
  refine ⟨rfl, Or.inr ⟨rfl, rfl⟩, Or.inr ⟨?_, rfl⟩⟩
  intro l hl
  rw [List.eq_of_mem_replicate hl]
  rfl

theorem inv_danceFloorSystem (host : HostMath) (dt : ℚ) {s : FXState}
    (h : Inv s) : Inv (danceFloorSystem host dt s) := h

theorem inv_clubLightsSystem (host : HostMath) (dt : ℚ) {s : FXState}
    (h : Inv s) : Inv (clubLightsSystem host dt s) := by
  obtain ⟨hlen, hdf, hlights⟩ := h
  refine ⟨by rw [clubLightsSystem_lights_length]; exact hlen, hdf, ?_⟩
  rcases hlights with ⟨hsc, hbtn⟩ | ⟨hsc, hbtn⟩
  · refine Or.inl ⟨?_, hbtn⟩
    intro l hl
    obtain ⟨l₀, hl₀, hEq⟩ := clubLightsSystem_lights_scale_mem host dt s hl
    rw [hEq]; exact hsc l₀ hl₀
  · refine Or.inr ⟨?_, hbtn⟩
    intro l hl
    obtain ⟨l₀, hl₀, hEq⟩ := clubLightsSystem_lights_scale_mem host dt s hl
    rw [hEq]; exact hsc l₀ hl₀

theorem inv_danceFloorToggle {s : FXState} (h : Inv s) :
    Inv (danceFloorToggle s) := by
  obtain ⟨hlen, hdf, hlights⟩ := h
  rcases hdf with ⟨hsc, _⟩ | ⟨hsc, _⟩
  · refine ⟨hlen, Or.inr ⟨?_, ?_⟩, hlights⟩
    · simp [danceFloorToggle, hsc]
    · simp [danceFloorToggle, hsc, dfButtonAlbedo, setPbrMaterial]
  · have hne : s.danceFloorTransform.scale ≠ Vector3.Zero := by
      rw [hsc]; exact danceFloorOriginalScale_ne_zero
    refine ⟨hlen, Or.inl ⟨?_, ?_⟩, hlights⟩
    · simp [danceFloorToggle, hne]
    · simp [danceFloorToggle, hne, dfButtonAlbedo, setPbrMaterial]

theorem inv_lightsToggle {s s' : FXState} (h : Inv s)
    (hstep : lightsToggle s = some s') : Inv s' := by
  obtain ⟨hlen, hdf, hlights⟩ := h
  obtain ⟨l0, ls, hcons⟩ : ∃ l0 ls, s.lights = l0 :: ls := by
    cases hc : s.lights with
    | nil => rw [hc] at hlen; simp [lightCount] at hlen
    | cons a as => exact ⟨a, as, rfl⟩
  have hl0 : l0 ∈ s.lights := by rw [hcons]; exact List.mem_cons_self _ _
  rcases hlights with ⟨hsc, _⟩ | ⟨hsc, _⟩
  · have h0 : l0.transform.scale = Vector3.Zero := hsc l0 hl0
    rw [lightsToggle, hcons] at hstep
    simp only [List.head?_cons, h0, Vector3.equals_iff] at hstep
    rw [← hcons] at hstep
    simp only [Option.some.injEq] at hstep
    subst hstep
    refine ⟨by simpa using hlen, hdf, Or.inr ⟨?_, rfl⟩⟩
    intro l hl
    obtain ⟨l₀, _, rfl⟩ := List.mem_map.1 hl
    rfl
  · have h0 : l0.transform.scale = lightOriginalScale := hsc l0 hl0
    have h0ne : l0.transform.scale ≠ Vector3.Zero := by
      rw [h0]; exact lightOriginalScale_ne_zero
    rw [lightsToggle, hcons] at hstep
    simp only [List.head?_cons] at hstep
    rw [← hcons] at hstep
    rw [show Vector3.equals l0.transform.scale Vector3.Zero = false by
      simpa using h0ne] at hstep
    simp only [Option.some.injEq] at hstep
    subst hstep
    refine ⟨by simpa using hlen, hdf, Or.inl ⟨?_, rfl⟩⟩
    intro l hl
    obtain ⟨l₀, _, rfl⟩ := List.mem_map.1 hl
    rfl

theorem inv_buttonPollSystem {s s' : FXState} (dfT lT : Bool) (h : Inv s)
    (hstep : buttonPollSystem dfT lT s = some s') : Inv s' := by
  rw [buttonPollSystem] at hstep
  have h1 : Inv (if dfT then danceFloorToggle s else s) := by
    cases dfT with
    | false => simpa using h
    | true => simpa using inv_danceFloorToggle h
  cases lT with
  | false =>
      simp only [Bool.false_eq_true, if_false, Option.some.injEq] at hstep
      rw [← hstep]; exact h1
  | true =>
      simp only [if_true] at hstep
      exact inv_lightsToggle h1 hstep

/-- Every reachable state satisfies the inductive invariant. -/
theorem inv_reachable (host : HostMath) {s : FXState}
    (h : Reachable host s) : Inv s := by
  induction h with
  | init => exact inv_fxInit
  | danceFloor dt _ ih => exact inv_danceFloorSystem host dt ih
  | clubLights dt _ ih => exact inv_clubLightsSystem host dt ih
  | buttons dfT lT _ hstep ih => exact inv_buttonPollSystem dfT lT ih hstep

/-! ### Toggle-branch lemmas -/

theorem Color4.red_ne_green : Color4.Red ≠ Color4.Green := by
  simp only [Color4.Red, Color4.Green, ne_eq, Color4.mk.injEq, not_and]
  norm_num

theorem danceFloorToggle_lights (s : FXState) :
    (danceFloorToggle s).lights = s.lights := rfl

theorem danceFloorToggle_lightsButtonMaterial (s : FXState) :
    (danceFloorToggle s).lightsButtonMaterial = s.lightsButtonMaterial := rfl

/-- The dance-floor toggle branch always leaves a two-valued scale. -/
theorem danceFloorToggle_scale_two_valued (s : FXState) :
    dfScaleTwoValued (danceFloorToggle s) := by
  rw [dfScaleTwoValued]
  by_cases h : s.danceFloorTransform.scale = Vector3.Zero
  · right; simp [danceFloorToggle, h]
  · left; simp [danceFloorToggle, h]

theorem lightsToggle_danceFloorTransform {s s' : FXState}
    (h : lightsToggle s = some s') :
    s'.danceFloorTransform = s.danceFloorTransform := by
  rw [lightsToggle] at h
  cases hc : s.lights.head? with
  | none => rw [hc] at h; exact absurd h (by simp)
  | some l0 =>
      rw [hc] at h
      simp only [Option.some.injEq] at h
      rw [← h]

theorem lightsToggle_danceFloorButtonMaterial {s s' : FXState}
    (h : lightsToggle s = some s') :
    s'.danceFloorButtonMaterial = s.danceFloorButtonMaterial := by
  rw [lightsToggle] at h
  cases hc : s.lights.head? with
  | none => rw [hc] at h; exact absurd h (by simp)
  | some l0 =>
      rw [hc] at h
      simp only [Option.some.injEq] at h
      rw [← h]

theorem lightsToggle_lights {s s' : FXState}
    (h : lightsToggle s = some s') (l0 : LightState)
    (h0 : s.lights.head? = some l0) :
    s'.lights = s.lights.map (fun l =>
      { l with transform :=
          { l.transform with
              scale := if !(Vector3.equals l0.transform.scale Vector3.Zero)
                then Vector3.Zero else lightOriginalScale } }) := by
  rw [lightsToggle, h0] at h
  simp only [Option.some.injEq] at h
  rw [← h]

/-- With a nonempty light list (in particular in every reachable state,
where there are `lightCount = 8` lights) the button-poll system never
faults. -/
theorem buttonPollSystem_isSome {s : FXState} (h : s.lights ≠ [])
    (dfT lT : Bool) : (buttonPollSystem dfT lT s).isSome := by
  rw [buttonPollSystem]
  have h1 : (if dfT then danceFloorToggle s else s).lights = s.lights := by
    cases dfT <;> simp [danceFloorToggle_lights]
  cases lT with
  | false => simp
  | true =>
      simp only [if_true]
      rw [lightsToggle, h1]
      cases hc : s.lights with
      | nil => exact absurd hc h
      | cons a as => simp

/-! ### C1 -/

/-- C1: in every reachable state of the scene the dance floor's scale is
either the zero vector or the cached original scale (10, 0.02, 10), and
each of the three registered systems (dance-floor color, club lights,
button poll) preserves this two-valued property. -/
theorem dfScale_two_valued_invariant (host : HostMath) :
    (∀ s : FXState, Reachable host s → dfScaleTwoValued s) ∧
    (∀ (dt : ℚ) (s : FXState), dfScaleTwoValued s →
        dfScaleTwoValued (danceFloorSystem host dt s)) ∧
    (∀ (dt : ℚ) (s : FXState), dfScaleTwoValued s →
        dfScaleTwoValued (clubLightsSystem host dt s)) ∧
    (∀ (dfT lT : Bool) (s s' : FXState), buttonPollSystem dfT lT s = some s' →
        dfScaleTwoValued s → dfScaleTwoValued s') := by
  refine ⟨?_, ?_, ?_, ?_⟩
  · intro s h
    rcases (inv_reachable host h).2.1 with ⟨hz, _⟩ | ⟨ho, _⟩
    · exact Or.inl hz
    · exact Or.inr ho
  · intro dt s h; exact h
  · intro dt s h; exact h
  · intro dfT lT s s' hstep h
    rw [buttonPollSystem] at hstep
    have h1 : dfScaleTwoValued (if dfT then danceFloorToggle s else s) := by
      cases dfT with
      | false => simpa using h
      | true => simpa using danceFloorToggle_scale_two_valued s
    cases lT with
    | false =>
        simp only [Bool.false_eq_true, if_false, Option.some.injEq] at hstep
        rw [← hstep]; exact h1
    | true =>
        simp only [if_true] at hstep
        rw [dfScaleTwoValued, lightsToggle_danceFloorTransform hstep]
        exact h1

/-- Witness for C1: concrete applications of each part of the theorem at
the initial state (with zero host trigonometry, dt = 1, a dance-floor
click with no lights click). -/
theorem dfScale_two_valued_invariant_witness :
    dfScaleTwoValued fxInit ∧
    dfScaleTwoValued (danceFloorSystem hostZero 1 fxInit) ∧
    dfScaleTwoValued (clubLightsSystem hostZero 1 fxInit) ∧
    dfScaleTwoValued (danceFloorToggle fxInit) :=
  ⟨(dfScale_two_valued_invariant hostZero).1 fxInit Reachable.init,
   (dfScale_two_valued_invariant hostZero).2.1 1 fxInit (Or.inr rfl),
   (dfScale_two_valued_invariant hostZero).2.2.1 1 fxInit (Or.inr rfl),
   (dfScale_two_valued_invariant hostZero).2.2.2 true false fxInit
     (danceFloorToggle fxInit) rfl (Or.inr rfl)⟩

/-! ### C8 -/

/-- C8: `createInteractiveFX` creates `lightCount = 8 > 0` lights, every
reachable state still has that many lights, and therefore the button
poll system's read of `lightEntities[0]` never takes the out-of-bounds
(fault) branch: the handler always returns a state. -/
theorem buttonPoll_index_in_bounds (host : HostMath) :
    lightCount = 8 ∧ 0 < lightCount ∧
    (∀ s : FXState, Reachable host s → s.lights.length = lightCount) ∧
    (∀ (s : FXState) (dfT lT : Bool), Reachable host s →
        (buttonPollSystem dfT lT s).isSome) := by
  refine ⟨rfl, by norm_num [lightCount], ?_, ?_⟩
  · intro s h; exact (inv_reachable host h).1
  · intro s dfT lT h
    have hlen : s.lights.length = lightCount := (inv_reachable host h).1
    have hne : s.lights ≠ [] := by
      intro hnil
      rw [hnil] at hlen
      simp [lightCount] at hlen
    exact buttonPollSystem_isSome hne dfT lT

/-- Witness for C8: the initial state has 8 lights and a simultaneous
click of both buttons succeeds there. -/
theorem buttonPoll_index_in_bounds_witness :
    fxInit.lights.length = lightCount ∧
    (buttonPollSystem true true fxInit).isSome :=
  ⟨(buttonPoll_index_in_bounds hostZero).2.2.1 fxInit Reachable.init,
   (buttonPoll_index_in_bounds hostZero).2.2.2 fxInit true true Reachable.init⟩

/-! ### C3 -/

/-- C3: when the lights button is triggered in a frame (with or without
a simultaneous dance-floor click), the handler succeeds and moves all
lights together: if the first light's scale is nonzero every light's
scale becomes the zero vector, otherwise every light's scale becomes
the cached original `lightOriginalScale`; afterwards all lights share
the same scale. -/
theorem lightsToggle_all_lights_together (dfT : Bool) (s : FXState)
    (l0 : LightState) (h0 : s.lights.head? = some l0) :
    ∃ s', buttonPollSystem dfT true s = some s' ∧
      (l0.transform.scale ≠ Vector3.Zero →
        ∀ l ∈ s'.lights, l.transform.scale = Vector3.Zero) ∧
      (l0.transform.scale = Vector3.Zero →
        ∀ l ∈ s'.lights, l.transform.scale = lightOriginalScale) ∧
      (∀ l1 ∈ s'.lights, ∀ l2 ∈ s'.lights,
        l1.transform.scale = l2.transform.scale) := by
  have hne : s.lights ≠ [] := by
    intro hnil; rw [hnil] at h0; exact absurd h0 (by simp)
  obtain ⟨s', hstep⟩ :=
    Option.isSome_iff_exists.1 (buttonPollSystem_isSome hne dfT true)
  have h1 : (if dfT then danceFloorToggle s else s).lights = s.lights := by
    cases dfT <;> rfl
  have h0' : (if dfT then danceFloorToggle s else s).lights.head? = some l0 := by
    rw [h1, h0]
  have hstep' : lightsToggle (if dfT then danceFloorToggle s else s) = some s' := by
    rw [buttonPollSystem] at hstep
    simpa using hstep
  have hlights : s'.lights = s.lights.map (fun l =>
      { l with transform :=
          { l.transform with
              scale := if !(Vector3.equals l0.transform.scale Vector3.Zero)
                then Vector3.Zero else lightOriginalScale } }) := by
    rw [lightsToggle_lights hstep' l0 h0', h1]
  refine ⟨s', hstep, ?_, ?_, ?_⟩
  · intro hv l hl
    have he : Vector3.equals l0.transform.scale Vector3.Zero = false := by
      simpa using hv
    rw [hlights] at hl
    obtain ⟨a, _, rfl⟩ := List.mem_map.1 hl
    simp [he]
  · intro hv l hl
    have he : Vector3.equals l0.transform.scale Vector3.Zero = true := by
      simpa using hv
    rw [hlights] at hl
    obtain ⟨a, _, rfl⟩ := List.mem_map.1 hl
    simp [he]
  · intro l1 hl1 l2 hl2
    rw [hlights] at hl1 hl2
    obtain ⟨a, _, rfl⟩ := List.mem_map.1 hl1
    obtain ⟨b, _, rfl⟩ := List.mem_map.1 hl2
    rfl

/-- Witness for C3: a lights-button click at the initial state, whose
first light is `initLight`. -/
theorem lightsToggle_all_lights_together_witness :
    ∃ s', buttonPollSystem false true fxInit = some s' ∧
      (initLight.transform.scale ≠ Vector3.Zero →
        ∀ l ∈ s'.lights, l.transform.scale = Vector3.Zero) ∧
      (initLight.transform.scale = Vector3.Zero →
        ∀ l ∈ s'.lights, l.transform.scale = lightOriginalScale) ∧
      (∀ l1 ∈ s'.lights, ∀ l2 ∈ s'.lights,
        l1.transform.scale = l2.transform.scale) :=
  lightsToggle_all_lights_together false fxInit initLight rfl

/-! ### C6 -/

/-- The dance-floor toggle branch on a visible floor: hide it and paint
the button red. -/
theorem danceFloorToggle_visible {s : FXState}
    (h : s.danceFloorTransform.scale ≠ Vector3.Zero) :
    danceFloorToggle s = { s with
      danceFloorTransform :=
        { s.danceFloorTransform with scale := Vector3.Zero }
      danceFloorButtonMaterial :=
        setPbrMaterial { albedoColor := some Color4.Red } } := by
  rw [danceFloorToggle,
    show Vector3.equals s.danceFloorTransform.scale Vector3.Zero = false by
      simpa using h]
  simp

/-- The dance-floor toggle branch on a hidden floor: restore the cached
scale and paint the button green. -/
theorem danceFloorToggle_hidden {s : FXState}
    (h : s.danceFloorTransform.scale = Vector3.Zero) :
    danceFloorToggle s = { s with
      danceFloorTransform :=
        { s.danceFloorTransform with scale := danceFloorOriginalScale }
      danceFloorButtonMaterial :=
        setPbrMaterial { albedoColor := some Color4.Green } } := by
  rw [danceFloorToggle,
    show Vector3.equals s.danceFloorTransform.scale Vector3.Zero = true by
      simpa using h]
  simp

/-- Counterexample to C6 as stated: `fxRedButton` has a two-valued
dance-floor scale (it equals the cached original), yet applying the
triggered dance-floor branch twice does not restore the button's albedo
color (it was red before, green after). -/
theorem danceFloorToggle_not_involutive_counterexample :
    dfScaleTwoValued fxRedButton ∧
    dfButtonAlbedo (danceFloorToggle (danceFloorToggle fxRedButton)) ≠
      dfButtonAlbedo fxRedButton := by
  refine ⟨Or.inr rfl, ?_⟩
  rw [danceFloorToggle_visible (s := fxRedButton)
    (by exact danceFloorOriginalScale_ne_zero)]
  rw [danceFloorToggle_hidden (s := _) rfl]
  intro hcontra
  exact absurd (Option.some.inj hcontra) (Ne.symm Color4.red_ne_green)

/-- C6 (amended): applying the triggered dance-floor branch twice always
restores the dance floor's scale, provided it was two-valued; it also
restores the button's albedo color provided that color agreed with the
floor's visibility (red when hidden, green when shown) beforehand. -/
theorem danceFloorToggle_involution (s : FXState) (hs : dfScaleTwoValued s) :
    (danceFloorToggle (danceFloorToggle s)).danceFloorTransform.scale =
      s.danceFloorTransform.scale ∧
    (((s.danceFloorTransform.scale = Vector3.Zero ∧
          dfButtonAlbedo s = some Color4.Red) ∨
      (s.danceFloorTransform.scale = danceFloorOriginalScale ∧
          dfButtonAlbedo s = some Color4.Green)) →
      dfButtonAlbedo (danceFloorToggle (danceFloorToggle s)) =
        dfButtonAlbedo s) := by
  rcases hs with hz | ho
  · rw [danceFloorToggle_hidden hz]
    rw [danceFloorToggle_visible (s := _)
      (by exact danceFloorOriginalScale_ne_zero)]
    refine ⟨hz.symm, ?_⟩
    rintro (⟨_, hred⟩ | ⟨ho2, _⟩)
    · rw [hred]; rfl
    · exact absurd (ho2.symm.trans hz) danceFloorOriginalScale_ne_zero
  · rw [danceFloorToggle_visible (s := s)
      (by rw [ho]; exact danceFloorOriginalScale_ne_zero)]
    rw [danceFloorToggle_hidden (s := _) rfl]
    refine ⟨ho.symm, ?_⟩
    rintro (⟨hz2, _⟩ | ⟨_, hgreen⟩)
    · exact absurd (ho.symm.trans hz2) danceFloorOriginalScale_ne_zero
    · rw [hgreen]; rfl

/-- Witness for C6 (amended): at the initial state (floor shown, button
green) the double toggle restores both the scale and the albedo. -/
theorem danceFloorToggle_involution_witness :
    (danceFloorToggle (danceFloorToggle fxInit)).danceFloorTransform.scale =
      fxInit.danceFloorTransform.scale ∧
    (((fxInit.danceFloorTransform.scale = Vector3.Zero ∧
          dfButtonAlbedo fxInit = some Color4.Red) ∨
      (fxInit.danceFloorTransform.scale = danceFloorOriginalScale ∧
          dfButtonAlbedo fxInit = some Color4.Green)) →
      dfButtonAlbedo (danceFloorToggle (danceFloorToggle fxInit)) =
        dfButtonAlbedo fxInit) :=
  danceFloorToggle_involution fxInit (Or.inr rfl)

/-! ### C9 -/

/-- C9: a club-lights frame leaves every hidden light entirely unchanged
(neither its position nor its material, in particular its emissive
color, is modified); only the shared `lightTime` accumulator advances,
by `dt * 0.5`. -/
theorem clubLights_hidden_unchanged (host : HostMath) (dt : ℚ) (s : FXState)
    (i : ℕ) (hi : i < s.lights.length)
    (hi2 : i < (clubLightsSystem host dt s).lights.length)
    (hhid : (s.lights.get ⟨i, hi⟩).transform.scale = Vector3.Zero) :
    (clubLightsSystem host dt s).lights.get ⟨i, hi2⟩ = s.lights.get ⟨i, hi⟩ ∧
    (clubLightsSystem host dt s).lightTime = s.lightTime + dt * (1/2) := by
  refine ⟨?_, rfl⟩
  rw [clubLightsSystem_lights_getElem host dt s i hi hi2]
  rw [updateLight,
    show Vector3.equals (s.lights.get ⟨i, hi⟩).transform.scale Vector3.Zero
        = true by simpa using hhid]
  simp

/-- Witness for C9: light 0 of the all-hidden state is untouched by a
frame of the club-lights system. -/
theorem clubLights_hidden_unchanged_witness :
    (clubLightsSystem hostZero 1 fxHidden).lights.get ⟨0, by decide⟩ =
      fxHidden.lights.get ⟨0, by decide⟩ ∧
    (clubLightsSystem hostZero 1 fxHidden).lightTime =
      fxHidden.lightTime + 1 * (1/2) :=
  clubLights_hidden_unchanged hostZero 1 fxHidden 0 (by decide) (by decide) rfl

/-! ### C10 -/

/-- C10: in every reachable state each button's albedo color reflects
visibility: the dance-floor button is green exactly when the dance
floor's scale is nonzero and red exactly when it is zero, and the
lights button is green exactly when a light's scale is nonzero and red
exactly when it is zero (uniformly over all lights). -/
theorem button_colors_reflect_visibility (host : HostMath) (s : FXState)
    (h : Reachable host s) :
    (dfButtonAlbedo s = some Color4.Green ↔
        s.danceFloorTransform.scale ≠ Vector3.Zero) ∧
    (dfButtonAlbedo s = some Color4.Red ↔
        s.danceFloorTransform.scale = Vector3.Zero) ∧
    ∀ l ∈ s.lights,
      ((lightsButtonAlbedo s = some Color4.Green ↔
          l.transform.scale ≠ Vector3.Zero) ∧
       (lightsButtonAlbedo s = some Color4.Red ↔
          l.transform.scale = Vector3.Zero)) := by
  obtain ⟨hlen, hdf, hl⟩ := inv_reachable host h
  have hRG : (some Color4.Red : Option Color4) ≠ some Color4.Green := by
    intro hc; exact absurd (Option.some.inj hc) Color4.red_ne_green
  have hGR : (some Color4.Green : Option Color4) ≠ some Color4.Red := by
    intro hc; exact absurd (Option.some.inj hc) (Ne.symm Color4.red_ne_green)
  refine ⟨?_, ?_, ?_⟩
  · rcases hdf with ⟨hz, hred⟩ | ⟨ho, hgreen⟩
    · constructor
      · intro hg; rw [hred] at hg; exact absurd hg hRG
      · intro hne; exact absurd hz hne
    · constructor
      · intro _; rw [ho]; exact danceFloorOriginalScale_ne_zero
      · intro _; exact hgreen
  · rcases hdf with ⟨hz, hred⟩ | ⟨ho, hgreen⟩
    · exact ⟨fun _ => hz, fun _ => hred⟩
    · constructor
      · intro hg; rw [hgreen] at hg; exact absurd hg hGR
      · intro hc; exact absurd (ho.symm.trans hc) danceFloorOriginalScale_ne_zero
  · intro l hmem
    rcases hl with ⟨hz, hred⟩ | ⟨horig, hgreen⟩
    · constructor
      · constructor
        · intro hg; rw [hred] at hg; exact absurd hg hRG
        · intro hne; exact absurd (hz l hmem) hne
      · exact ⟨fun _ => hz l hmem, fun _ => hred⟩
    · constructor
      · constructor
        · intro _; rw [horig l hmem]; exact lightOriginalScale_ne_zero
        · intro _; exact hgreen
      · constructor
        · intro hg; rw [hgreen] at hg; exact absurd hg hGR
        · intro hc
          exact absurd ((horig l hmem).symm.trans hc) lightOriginalScale_ne_zero

/-- Witness for C10: at the initial state both buttons are green, both
effects are visible, and the biconditionals hold for light 0. -/
theorem button_colors_reflect_visibility_witness :
    (dfButtonAlbedo fxInit = some Color4.Green ↔
        fxInit.danceFloorTransform.scale ≠ Vector3.Zero) ∧
    (dfButtonAlbedo fxInit = some Color4.Red ↔
        fxInit.danceFloorTransform.scale = Vector3.Zero) ∧
    ((lightsButtonAlbedo fxInit = some Color4.Green ↔
        initLight.transform.scale ≠ Vector3.Zero) ∧
     (lightsButtonAlbedo fxInit = some Color4.Red ↔
        initLight.transform.scale = Vector3.Zero)) :=
  ⟨(button_colors_reflect_visibility hostZero fxInit Reachable.init).1,
   (button_colors_reflect_visibility hostZero fxInit Reachable.init).2.1,
   (button_colors_reflect_visibility hostZero fxInit Reachable.init).2.2
     initLight (List.mem_replicate.2 ⟨by norm_num [lightCount], rfl⟩)⟩

/-! ### C4 -/

/-- C4: on every frame, with elapsed-time accumulator t (the sum of all
dt so far, including this frame's), if the dance floor's material is a
PBR material then its emissive color is set to exactly
((sin(2t)+1)/2, (cos(0.5t)+1)/2, (sin(1t+π)+1)/2); and whenever the
host's sine and cosine stay within [-1, 1], each channel lies in
[0, 1]. -/
theorem danceFloorSystem_emissive_formula (host : HostMath) (dt : ℚ)
    (s : FXState) (p : PbrMaterial)
    (hp : s.danceFloorMaterial.material = some (.pbr p))
    (hsin : ∀ q : ℚ, |host.sin q| ≤ 1) (hcos : ∀ q : ℚ, |host.cos q| ≤ 1) :
    dfEmissive (danceFloorSystem host dt s) =
      some (Color3.create ((host.sin (2 * (s.totalTime + dt)) + 1) / 2)
        ((host.cos ((1/2) * (s.totalTime + dt)) + 1) / 2)
        ((host.sin (1 * (s.totalTime + dt) + host.pi) + 1) / 2)) ∧
    0 ≤ (host.sin (2 * (s.totalTime + dt)) + 1) / 2 ∧
    (host.sin (2 * (s.totalTime + dt)) + 1) / 2 ≤ 1 ∧
    0 ≤ (host.cos ((1/2) * (s.totalTime + dt)) + 1) / 2 ∧
    (host.cos ((1/2) * (s.totalTime + dt)) + 1) / 2 ≤ 1 ∧
    0 ≤ (host.sin (1 * (s.totalTime + dt) + host.pi) + 1) / 2 ∧
    (host.sin (1 * (s.totalTime + dt) + host.pi) + 1) / 2 ≤ 1 := by
  refine ⟨?_, ?_, ?_, ?_, ?_, ?_, ?_⟩
  · simp [danceFloorSystem, dfEmissive, hp, Color3.create, mul_comm]
  · have := (abs_le.1 (hsin (2 * (s.totalTime + dt)))).1; linarith
  · have := (abs_le.1 (hsin (2 * (s.totalTime + dt)))).2; linarith
  · have := (abs_le.1 (hcos ((1/2) * (s.totalTime + dt)))).1; linarith
  · have := (abs_le.1 (hcos ((1/2) * (s.totalTime + dt)))).2; linarith
  · have := (abs_le.1 (hsin (1 * (s.totalTime + dt) + host.pi))).1; linarith
  · have := (abs_le.1 (hsin (1 * (s.totalTime + dt) + host.pi))).2; linarith

/-- Witness for C4: the formula at the initial state with the
all-zero host trigonometry and dt = 1. -/
theorem danceFloorSystem_emissive_formula_witness :
    dfEmissive (danceFloorSystem hostZero 1 fxInit) =
      some (Color3.create ((hostZero.sin (2 * (fxInit.totalTime + 1)) + 1) / 2)
        ((hostZero.cos ((1/2) * (fxInit.totalTime + 1)) + 1) / 2)
        ((hostZero.sin (1 * (fxInit.totalTime + 1) + hostZero.pi) + 1) / 2)) ∧
    0 ≤ (hostZero.sin (2 * (fxInit.totalTime + 1)) + 1) / 2 :=
  ⟨(danceFloorSystem_emissive_formula hostZero 1 fxInit danceFloorPbr rfl
      (fun q => by simp [hostZero]) (fun q => by simp [hostZero])).1,
   (danceFloorSystem_emissive_formula hostZero 1 fxInit danceFloorPbr rfl
      (fun q => by simp [hostZero]) (fun q => by simp [hostZero])).2.1⟩

/-! ### C5 -/

/-- C5: on a frame of the club-lights callback over the 8 created
lights, each light at index i whose scale is nonzero is placed at
(8 + 4·cos(aᵢ), 5, 8 + 4·sin(aᵢ)) where aᵢ = lightTime + i·(2π/8) at
the frame's updated `lightTime`; consecutive lights are evenly spaced
by 2π/8 radians. -/
theorem clubLightsSystem_orbit (host : HostMath) (dt : ℚ) (s : FXState)
    (hn : s.lights.length = lightCount) (i : ℕ) (hi : i < s.lights.length)
    (hi2 : i < (clubLightsSystem host dt s).lights.length)
    (hvis : (s.lights.get ⟨i, hi⟩).transform.scale ≠ Vector3.Zero) :
    ((clubLightsSystem host dt s).lights.get ⟨i, hi2⟩).transform.position =
      Vector3.create
        (8 + 4 * host.cos (lightAngle host (s.lightTime + dt * (1/2)) 8 i)) 5
        (8 + 4 * host.sin (lightAngle host (s.lightTime + dt * (1/2)) 8 i)) ∧
    lightAngle host (s.lightTime + dt * (1/2)) 8 (i + 1) -
      lightAngle host (s.lightTime + dt * (1/2)) 8 i = host.pi * 2 / 8 := by
  constructor
  · obtain ⟨l, hl⟩ : ∃ l, s.lights.get ⟨i, hi⟩ = l := ⟨_, rfl⟩
    rw [hl] at hvis
    rw [clubLightsSystem_lights_getElem host dt s i hi hi2, hl, hn]
    rw [updateLight,
      show Vector3.equals l.transform.scale Vector3.Zero = false by
        simpa using hvis]
    simp [lightCount, lightAngle, Vector3.create, mul_comm]
  · simp only [lightAngle]
    push_cast
    ring

/-- Witness for C5: light 0 of the initial state, dt = 1, all-zero host
trigonometry. -/
theorem clubLightsSystem_orbit_witness :
    ((clubLightsSystem hostZero 1 fxInit).lights.get
        ⟨0, by decide⟩).transform.position =
      Vector3.create
        (8 + 4 * hostZero.cos (lightAngle hostZero (fxInit.lightTime + 1 * (1/2)) 8 0)) 5
        (8 + 4 * hostZero.sin (lightAngle hostZero (fxInit.lightTime + 1 * (1/2)) 8 0)) ∧
    lightAngle hostZero (fxInit.lightTime + 1 * (1/2)) 8 (0 + 1) -
      lightAngle hostZero (fxInit.lightTime + 1 * (1/2)) 8 0 =
        hostZero.pi * 2 / 8 :=
  clubLightsSystem_orbit hostZero 1 fxInit rfl 0 (by decide) (by decide)
    (by simpa using lightOriginalScale_ne_zero)

/-! ### C7 -/

/-- C7: the repository's code registers exactly three per-frame systems
with the engine — the dance-floor color system, the club-lights system
and the button-poll system, in that order — and their semantics are the
three step functions of this embedding; `createVenue` and `main`
register none. -/
theorem scene_registers_three_systems :
    sceneRegisteredSystems =
      [SystemId.danceFloorSystem, SystemId.clubLightsSystem,
        SystemId.buttonPollSystem] ∧
    sceneRegisteredSystems.length = 3 ∧
    venueRegisteredSystems = [] ∧ indexRegisteredSystems = [] ∧
    (∀ (host : HostMath) (dt : ℚ) (dfT lT : Bool) (s : FXState),
      runSystem SystemId.danceFloorSystem host dt dfT lT s =
        some (danceFloorSystem host dt s) ∧
      runSystem SystemId.clubLightsSystem host dt dfT lT s =
        some (clubLightsSystem host dt s) ∧
      runSystem SystemId.buttonPollSystem host dt dfT lT s =
        buttonPollSystem dfT lT s) :=
  ⟨rfl, rfl, rfl, rfl, fun _ _ _ _ _ => ⟨rfl, rfl, rfl⟩⟩

/-! ### C2 -/

/-- Counterexample to C2 as stated: two invocations of the color
callback with the same delta time dt = 1 but different frame histories
(accumulated `totalTime` 0 versus 1) write different emissive colors,
already for the injective host trigonometry `hostLinear`; the callback
is therefore not a stateless mapping of dt alone. -/
theorem danceFloor_color_depends_on_history :
    dfEmissive (danceFloorSystem hostLinear 1 fxInit) ≠
      dfEmissive (danceFloorSystem hostLinear 1 { fxInit with totalTime := 1 }) := by
  simp [danceFloorSystem, dfEmissive, fxInit, hostLinear, setPbrMaterial,
    danceFloorPbr, Color3.create]
  norm_num

theorem toggleView_danceFloorToggle {s1 s2 : FXState}
    (h : toggleView s1 = toggleView s2) :
    toggleView (danceFloorToggle s1) = toggleView (danceFloorToggle s2) := by
  have e1 : s1.danceFloorTransform = s2.danceFloorTransform :=
    congrArg (fun v => v.1) h
  have e2 : s1.lights = s2.lights := congrArg (fun v => v.2.1) h
  have e4 : s1.lightsButtonMaterial = s2.lightsButtonMaterial :=
    congrArg (fun v => v.2.2.2) h
  simp [toggleView, danceFloorToggle, e1, e2, e4]

theorem toggleView_lightsToggle {s1 s2 : FXState}
    (h : toggleView s1 = toggleView s2) :
    Option.map toggleView (lightsToggle s1) =
      Option.map toggleView (lightsToggle s2) := by
  have e1 : s1.danceFloorTransform = s2.danceFloorTransform :=
    congrArg (fun v => v.1) h
  have e2 : s1.lights = s2.lights := congrArg (fun v => v.2.1) h
  have e3 : s1.danceFloorButtonMaterial = s2.danceFloorButtonMaterial :=
    congrArg (fun v => v.2.2.1) h
  rw [lightsToggle, lightsToggle, e2]
  cases hc : s2.lights.head? with
  | none => rfl
  | some l0 => simp [toggleView, e1, e2, e3]

/-- C2 (amended): each callback is a deterministic mapping of its actual
inputs — the polled input-event results together with the component
state it reads. Two invocations of the color callback agree whenever dt
and the prior (totalTime, dance-floor material) agree; two club-lights
invocations agree whenever dt and the prior (lightTime, lights) agree;
two button-poll invocations agree whenever the polled inputs and the
prior (dance-floor transform, lights, button materials) agree. Equal dt
alone does not suffice for the color callback, which reads the
accumulated elapsed time. -/
theorem fx_callbacks_deterministic :
    (∀ (host : HostMath) (dt : ℚ) (s1 s2 : FXState), dfView s1 = dfView s2 →
        dfView (danceFloorSystem host dt s1) =
          dfView (danceFloorSystem host dt s2)) ∧
    (∀ (host : HostMath) (dt : ℚ) (s1 s2 : FXState), clubView s1 = clubView s2 →
        clubView (clubLightsSystem host dt s1) =
          clubView (clubLightsSystem host dt s2)) ∧
    (∀ (dfT lT : Bool) (s1 s2 : FXState), toggleView s1 = toggleView s2 →
        Option.map toggleView (buttonPollSystem dfT lT s1) =
          Option.map toggleView (buttonPollSystem dfT lT s2)) := by
  refine ⟨?_, ?_, ?_⟩
  · intro host dt s1 s2 h
    have h1 : s1.totalTime = s2.totalTime := congrArg (fun v => v.1) h
    have h2 : s1.danceFloorMaterial = s2.danceFloorMaterial :=
      congrArg (fun v => v.2) h
    simp [dfView, danceFloorSystem, h1, h2]
  · intro host dt s1 s2 h
    have h1 : s1.lightTime = s2.lightTime := congrArg (fun v => v.1) h
    have h2 : s1.lights = s2.lights := congrArg (fun v => v.2) h
    simp [clubView, clubLightsSystem, h1, h2]
  · intro dfT lT s1 s2 h
    have h1 : toggleView (if dfT then danceFloorToggle s1 else s1) =
        toggleView (if dfT then danceFloorToggle s2 else s2) := by
      cases dfT with
      | false => simpa using h
      | true => simpa using toggleView_danceFloorToggle h
    rw [buttonPollSystem, buttonPollSystem]
    cases lT with
    | false => simpa using h1
    | true => simpa using toggleView_lightsToggle h1

/-- Witness for C2 (amended): concrete applications at states that are
distinct but agree on the component state each callback reads. -/
theorem fx_callbacks_deterministic_witness :
    dfView (danceFloorSystem hostZero 1 fxInit) =
      dfView (danceFloorSystem hostZero 1 { fxInit with lightTime := 5 }) ∧
    clubView (clubLightsSystem hostZero 1 fxInit) =
      clubView (clubLightsSystem hostZero 1 { fxInit with totalTime := 5 }) ∧
    Option.map toggleView (buttonPollSystem true true fxInit) =
      Option.map toggleView
        (buttonPollSystem true true { fxInit with totalTime := 5 }) :=
  ⟨fx_callbacks_deterministic.1 hostZero 1 fxInit
      { fxInit with lightTime := 5 } rfl,
   fx_callbacks_deterministic.2.1 hostZero 1 fxInit
      { fxInit with totalTime := 5 } rfl,
   fx_callbacks_deterministic.2.2 true true fxInit
      { fxInit with totalTime := 5 } rfl⟩

end LiveFX
